import Mathlib

/-!
Verification of the aptos-sf-indexer orchestrator
(`src/ecosystem/sf-indexer/aptos-sf-indexer/src/main.rs`) against its
natural-language specification.

The orchestrator (`main`) reads environment variables, builds a connection
pool, resolves the start height from the resume tracker, constructs a
`SubstreamsStream`, and then drives a sequential loop that polls the stream,
dispatches matching block events to the block processor, and advances a
local height counter.  We embed that control flow shallowly: environment
lookups become `Option String` inputs, the stream becomes an explicit list
of items, and the loop becomes a structural recursion returning either the
final state or a panic record.
-/

namespace SfIndexer

/-- Modelled from the spec: `BlockScopedData` lives in `substreams_stream.rs`,
which is not under `src/`; per the spec a block event carries a reported
block height, payload bytes and an opaque cursor (`main.rs` reads
`data.cursor` and hands the whole datum to the processor). -/
structure BlockScopedData where
  height : Nat
  payload : List Nat
  cursor : String
deriving DecidableEq, Repr

/-- Modelled from the spec: the `BlockResponse` enum of
`substreams_stream.rs` (not under `src/`); `main.rs` matches on its
`New` variant carrying a `BlockScopedData`. -/
inductive BlockResponse where
  | new : BlockScopedData → BlockResponse
deriving DecidableEq, Repr

/-- Modelled from the spec: the error payload of an `Err` item yielded by
the stream (an opaque `anyhow::Error` in the source); the spec names
connection and decode errors as the kinds that can arise on the stream. -/
inductive StreamError where
  | connectionError : StreamError
  | decodeError : StreamError
deriving DecidableEq, Repr

/-- The error returned by `process_substream_with_status` (its body is not
under `src/`; `main.rs` only logs it with `{:?}` and panics), kept as an
opaque message. -/
abbrev ProcessingError := String

/-- One item yielded by `stream.next().await` as `main.rs` sees it:
`none` models the stream returning `None` (end of stream); the `Except`
models the `Result` inside `Some`. -/
abbrev StreamItem := Except StreamError BlockResponse

/-- The record of the `panic!()` at `main.rs:123`: the block height being
processed and the processing error that was logged just before the panic. -/
structure PanicInfo where
  height : Nat
  error : ProcessingError
deriving DecidableEq, Repr

/-- The orchestrator loop's mutable state: the local `block_height`
counter (`main.rs:90`), plus the trace of heights passed to
`process_substream_with_status`, recorded in call order so that the
delivery-order claims can be stated. -/
structure RunState where
  blockHeight : Nat
  processedHeights : List Nat
deriving DecidableEq, Repr

/-- The signature of `BlockOutputSubstreamProcessor::process_substream_with_status`
as invoked at `main.rs:106-112`: module name, block data, block height. -/
abbrev Processor := String → BlockScopedData → Nat → Except ProcessingError Unit

/-- The orchestrator loop of `main.rs:91-130`, run over an explicit list of
stream items.  Faithful to the source:
* `[]` models `stream.next()` returning `None`: the loop breaks and `main`
  falls through to `Ok(())`, so we return the state as `.ok`;
* an `Err(..)` item fails the `if let Ok(BlockResponse::New(data))` pattern
  at `main.rs:98`, so the body does nothing and the loop continues;
* an `Ok(New data)` item is processed only when the module name equals
  `"block_to_block_output"` (`main.rs:104`); on processor success
  `block_height` is incremented, on processor error the process panics
  (`main.rs:123`); for any other module name the event is skipped. -/
def mainLoop (moduleName : String) (proc : Processor) :
    RunState → List StreamItem → Except PanicInfo RunState
  | st, [] => .ok st
  | st, item :: rest =>
    match item with
    | .error _ => mainLoop moduleName proc st rest
    | .ok (.new data) =>
      if moduleName = "block_to_block_output" then
        match proc moduleName data st.blockHeight with
        | .ok _ =>
            mainLoop moduleName proc
              { blockHeight := st.blockHeight + 1,
                processedHeights := st.processedHeights ++ [st.blockHeight] } rest
        | .error e => .error { height := st.blockHeight, error := e }
      else
        mainLoop moduleName proc st rest

/-- The start-height computation at `main.rs:75-78`:
`get_start_block(&conn_pool, name).unwrap_or_else(|| 0)` — the resume
tracker's optional marker, defaulting to block 0 when absent. -/
def start_block (marker : Option Nat) : Nat :=
  marker.getD 0

/-- The bearer-token computation at `main.rs:66-70`: the
`SUBSTREAMS_API_TOKEN` environment variable defaulted to `""` on any
lookup error, then turned into `Some` only when non-empty. -/
def apiToken (envVal : Option String) : Option String :=
  let token_env := envVal.getD ""
  if token_env.isEmpty then none else some token_env

/-- Modelled from the spec: the package descriptor decoded by
`read_package` (`proto::Package`, not under `src/`) — a set of named
transform modules; `main.rs` forwards `package.modules` to the stream. -/
structure Package where
  modules : List String
deriving DecidableEq, Repr

/-- The arguments `main.rs:81-88` passes to `SubstreamsStream::new`:
cursor, module graph, module name, start block and stop block. -/
structure StreamArgs where
  cursor : Option String
  modules : List String
  moduleName : String
  startBlock : Nat
  stopBlock : Nat
deriving DecidableEq, Repr

/-- The `SubstreamsStream::new` call of `main.rs:81-88`: the cursor
argument is the literal `None`, the start bound is the resume start block
and the stop bound is `start_block + 500`. -/
def mainStreamArgs (pkg : Package) (moduleName : String) (startBlock : Nat) : StreamArgs :=
  { cursor := none
    modules := pkg.modules
    moduleName := moduleName
    startBlock := startBlock
    stopBlock := startBlock + 500 }

/-- The environment variables `main.rs` reads; `none` models an unset
variable. -/
structure Env where
  database_url : Option String
  substreams_api_token : Option String
deriving DecidableEq, Repr

/-- The ways startup (`main.rs:58-88`) can abort before the loop starts:
the `expect` on `DATABASE_URL` (line 58), the `?` on `read_package`
(line 71), and the `?` on `SubstreamsEndpoint::new` (line 72). -/
inductive StartupError where
  | missingDatabaseUrl : StartupError
  | packageDecodeError : StartupError
  | connectionError : StartupError
deriving DecidableEq, Repr

/-- What startup has produced once it reaches the loop: the URL the
connection pool was created from (`main.rs:59`), the bearer token handed
to the endpoint, and the stream-construction arguments. -/
structure StartupResult where
  poolUrl : String
  token : Option String
  streamArgs : StreamArgs
deriving DecidableEq, Repr

/-- The startup sequence of `main.rs:58-88`, up to and including the
construction of the stream arguments, in source order: `DATABASE_URL` is
read first and its absence aborts everything after it; then the token is
computed, the package decoded (`packageFile` models the outcome of
`read_package`), the endpoint connected (`connectOk` models whether
`SubstreamsEndpoint::new` succeeded), the start block resolved from the
resume-tracker marker, and the stream arguments assembled.  No step
inspects the module name. -/
def mainStartup (env : Env) (packageFile : Except Unit Package) (connectOk : Bool)
    (moduleName : String) (marker : Option Nat) : Except StartupError StartupResult :=
  match env.database_url with
  | none => .error .missingDatabaseUrl
  | some database_url =>
    let token := apiToken env.substreams_api_token
    match packageFile with
    | .error _ => .error .packageDecodeError
    | .ok package =>
      if connectOk then
        .ok { poolUrl := database_url
              token := token
              streamArgs := mainStreamArgs package moduleName (start_block marker) }
      else
        .error .connectionError

/-- Modelled from the spec: the provider-side signals of the streaming
protocol (`NewBlock | EndOfWindow | EndOfStream`), handled inside
`substreams_stream.rs`, which is not under `src/`. -/
inductive ProviderSignal where
  | newBlock : BlockScopedData → ProviderSignal
  | endOfWindow : ProviderSignal
  | endOfStream : ProviderSignal
deriving DecidableEq, Repr

/-- Modelled from the spec: the windowed stream reader's translation of
provider signals into the items the orchestrator polls
(`substreams_stream.rs` is not under `src/`): a `NewBlock` is yielded as
an `Ok` item, an `EndOfWindow` triggers a transparent window refill and
the reader keeps yielding, and an `EndOfStream` closes the item sequence. -/
def readerItems : List ProviderSignal → List StreamItem
  | [] => []
  | .newBlock d :: rest => .ok (.new d) :: readerItems rest
  | .endOfWindow :: rest => readerItems rest
  | .endOfStream :: _ => []

end SfIndexer

namespace SfIndexer

/-! ### Equation lemmas for the orchestrator loop -/

theorem mainLoop_nil (m : String) (p : Processor) (st : RunState) :
    mainLoop m p st [] = .ok st := rfl

theorem mainLoop_err (m : String) (p : Processor) (st : RunState)
    (e : StreamError) (rest : List StreamItem) :
    mainLoop m p st (Except.error e :: rest) = mainLoop m p st rest := rfl

theorem mainLoop_new_ok (m : String) (p : Processor) (st : RunState)
    (d : BlockScopedData) (rest : List StreamItem)
    (hm : m = "block_to_block_output")
    (hp : p m d st.blockHeight = .ok ()) :
    mainLoop m p st (Except.ok (BlockResponse.new d) :: rest) =
      mainLoop m p
        { blockHeight := st.blockHeight + 1,
          processedHeights := st.processedHeights ++ [st.blockHeight] } rest := by
  subst hm
  simp [mainLoop, hp]

theorem mainLoop_new_err (m : String) (p : Processor) (st : RunState)
    (d : BlockScopedData) (rest : List StreamItem) (err : ProcessingError)
    (hm : m = "block_to_block_output")
    (hp : p m d st.blockHeight = .error err) :
    mainLoop m p st (Except.ok (BlockResponse.new d) :: rest) =
      .error { height := st.blockHeight, error := err } := by
  subst hm
  simp [mainLoop, hp]

theorem mainLoop_new_skip (m : String) (p : Processor) (st : RunState)
    (d : BlockScopedData) (rest : List StreamItem)
    (hm : m ≠ "block_to_block_output") :
    mainLoop m p st (Except.ok (BlockResponse.new d) :: rest) =
      mainLoop m p st rest := by
  simp [mainLoop, hm]

/-- Invariant of the loop: any normally terminating run extends the trace of
heights passed to the processor by exactly the contiguous range starting at
the incoming counter value, and advances the counter by the length of that
range. -/
theorem mainLoop_ok_extends (m : String) (p : Processor) :
    ∀ (events : List StreamItem) (st final : RunState),
      mainLoop m p st events = Except.ok final →
      ∃ n, final.blockHeight = st.blockHeight + n ∧
        final.processedHeights = st.processedHeights ++ List.range' st.blockHeight n := by
  intro events
  induction events with
  | nil =>
      intro st final h
      rw [mainLoop_nil] at h
      injection h with h
      exact ⟨0, by simp [h]⟩
  | cons item rest ih =>
      intro st final h
      cases item with
      | error e =>
          rw [mainLoop_err] at h
          exact ih st final h
      | ok r =>
          cases r with
          | new d =>
              by_cases hm : m = "block_to_block_output"
              · cases hp : p m d st.blockHeight with
                | ok u =>
                    cases u
                    rw [mainLoop_new_ok m p st d rest hm hp] at h
                    obtain ⟨n, h1, h2⟩ := ih _ final h
                    refine ⟨n + 1, ?_, ?_⟩
                    · simp at h1
                      omega
                    · rw [h2]
                      simp [List.range'_succ, List.append_assoc]
                | error err =>
                    rw [mainLoop_new_err m p st d rest err hm hp] at h
                    exact absurd h (by simp)
              · rw [mainLoop_new_skip m p st d rest hm] at h
                exact ih st final h

/-- If the module name is not `"block_to_block_output"`, the loop invokes no
processor, never advances the counter, and completes normally on any event
list with its state unchanged. -/
theorem mainLoop_skip_all (m : String) (p : Processor)
    (hm : m ≠ "block_to_block_output") :
    ∀ (events : List StreamItem) (st : RunState),
      mainLoop m p st events = .ok st := by
  intro events
  induction events with
  | nil => intro st; rfl
  | cons item rest ih =>
      intro st
      cases item with
      | error e => rw [mainLoop_err]; exact ih st
      | ok r =>
          cases r with
          | new d => rw [mainLoop_new_skip m p st d rest hm]; exact ih st

end SfIndexer

namespace SfIndexer

/-! ### Claims -/

/-- C1 counterexample: the stream delivers an event whose reported block
height (5) differs from the locally expected next height (0), yet the run
does not terminate fatally — the event is processed (the trace gains the
local height 0) and the loop completes normally.  The orchestrator of
`main.rs` contains no ordering-violation check. -/
theorem C1_counterexample :
    (5 : Nat) ≠ 0 ∧
    mainLoop "block_to_block_output" (fun _ _ _ => .ok ()) ⟨0, []⟩
      [Except.ok (BlockResponse.new ⟨5, [], "c"⟩)] = .ok ⟨1, [0]⟩ :=
  ⟨by decide, rfl⟩

/-- C1 (amended): the orchestrator never inspects the event's reported block
height: an event whose reported height differs from the locally expected
next height is processed anyway — the processor is invoked with the local
counter, the counter advances by one, and the loop continues with the
remaining items. -/
theorem C1_reported_height_ignored (p : Processor) (st : RunState)
    (d : BlockScopedData) (rest : List StreamItem)
    (hp : p "block_to_block_output" d st.blockHeight = .ok ())
    (_hne : d.height ≠ st.blockHeight) :
    mainLoop "block_to_block_output" p st (Except.ok (BlockResponse.new d) :: rest) =
      mainLoop "block_to_block_output" p
        { blockHeight := st.blockHeight + 1,
          processedHeights := st.processedHeights ++ [st.blockHeight] } rest :=
  mainLoop_new_ok _ p st d rest rfl hp

theorem C1_reported_height_ignored_witness :
    mainLoop "block_to_block_output" (fun _ _ _ => .ok ()) ⟨0, []⟩
      [Except.ok (BlockResponse.new ⟨7, [], "w"⟩)] =
      mainLoop "block_to_block_output" (fun _ _ _ => .ok ()) ⟨1, [0]⟩ [] :=
  C1_reported_height_ignored (fun _ _ _ => .ok ()) ⟨0, []⟩ ⟨7, [], "w"⟩ [] rfl (by decide)

/-- C2 counterexample: an error item yielded by the stream is silently
skipped — the loop continues to the next item, processes it, and the run
completes normally, contradicting the claim that a `Some(Err(..))` event is
never skipped. -/
theorem C2_counterexample :
    mainLoop "block_to_block_output" (fun _ _ _ => .ok ()) ⟨0, []⟩
      [Except.error StreamError.connectionError,
       Except.ok (BlockResponse.new ⟨0, [], "c"⟩)] = .ok ⟨1, [0]⟩ :=
  rfl

/-- C2 (amended): a `ProcessingError` raised by the block processor
terminates the run fatally (the `panic!()` at `main.rs:123`) after logging
the block height, but an error item yielded by the stream is silently
skipped: the loop continues with the remaining items and the state is
unchanged. -/
theorem C2_fail_fast_amended (p : Processor) (st : RunState) (d : BlockScopedData)
    (e : StreamError) (err : ProcessingError) (rest : List StreamItem)
    (hp : p "block_to_block_output" d st.blockHeight = .error err) :
    mainLoop "block_to_block_output" p st (Except.ok (BlockResponse.new d) :: rest) =
      .error { height := st.blockHeight, error := err } ∧
    mainLoop "block_to_block_output" p st (Except.error e :: rest) =
      mainLoop "block_to_block_output" p st rest :=
  ⟨mainLoop_new_err _ p st d rest err rfl hp, mainLoop_err _ p st e rest⟩

theorem C2_fail_fast_amended_witness :
    mainLoop "block_to_block_output" (fun _ _ _ => .error "boom") ⟨0, []⟩
      [Except.ok (BlockResponse.new ⟨0, [], "c"⟩)] = .error ⟨0, "boom"⟩ ∧
    mainLoop "block_to_block_output" (fun _ _ _ => .error "boom") ⟨0, []⟩
      [Except.error StreamError.decodeError] =
      mainLoop "block_to_block_output" (fun _ _ _ => .error "boom") ⟨0, []⟩ [] :=
  C2_fail_fast_amended (fun _ _ _ => .error "boom") ⟨0, []⟩ ⟨0, [], "c"⟩
    StreamError.decodeError "boom" [] rfl

/-- C3: in any successful run that starts the counter at h0 with an empty
trace and passes k+1 heights to the block processor, those heights are
exactly h0, h0+1, ..., h0+k — contiguous, strictly increasing, no
duplicates, no gaps — and the final counter equals h0 plus the number of
blocks processed. -/
theorem C3_contiguous_heights (p : Processor) (events : List StreamItem)
    (h0 k : Nat) (final : RunState)
    (hrun : mainLoop "block_to_block_output" p ⟨h0, []⟩ events = .ok final)
    (hlen : final.processedHeights.length = k + 1) :
    final.processedHeights = List.range' h0 (k + 1) ∧
    final.blockHeight = h0 + (k + 1) := by
  obtain ⟨n, h1, h2⟩ := mainLoop_ok_extends _ p events ⟨h0, []⟩ final hrun
  simp at h1 h2
  have hn : n = k + 1 := by
    rw [h2] at hlen
    simpa using hlen
  subst hn
  exact ⟨h2, h1⟩

theorem C3_contiguous_heights_witness :
    mainLoop "block_to_block_output" (fun _ _ _ => Except.ok ()) ⟨2, []⟩
      [Except.ok (BlockResponse.new ⟨2, [], "a"⟩),
       Except.ok (BlockResponse.new ⟨3, [], "b"⟩)] = Except.ok ⟨4, [2, 3]⟩ ∧
    ([2, 3] : List Nat) = List.range' 2 2 ∧ (4 : Nat) = 2 + 2 := by
  have h := C3_contiguous_heights (fun _ _ _ => Except.ok ())
    [Except.ok (BlockResponse.new ⟨2, [], "a"⟩),
     Except.ok (BlockResponse.new ⟨3, [], "b"⟩)]
    2 1 ⟨4, [2, 3]⟩ rfl rfl
  exact ⟨rfl, h.1, h.2⟩

/-- C4: the starting block height is 0 when the resume tracker has no
marker for the module, and the marker's value otherwise (`main.rs:75-78`). -/
theorem C4_start_block_default (h : Nat) :
    start_block none = 0 ∧ start_block (some h) = h :=
  ⟨rfl, rfl⟩

/-- C5: the loop terminates normally exactly at end of stream — on an empty
item list it returns the state as `Ok`; any delivered item either hands
control to the loop on the remaining items (possibly with an updated state)
or panics, so no item causes a normal exit; and in the windowed reader an
`EndOfWindow` provider signal never ends the item sequence, while
`EndOfStream` does. -/
theorem C5_termination_only_at_end_of_stream (m : String) (p : Processor)
    (st : RunState) (item : StreamItem) (rest : List StreamItem)
    (sigs : List ProviderSignal) :
    mainLoop m p st [] = .ok st ∧
    ((∃ st', mainLoop m p st (item :: rest) = mainLoop m p st' rest) ∨
      (∃ pan, mainLoop m p st (item :: rest) = .error pan)) ∧
    readerItems (ProviderSignal.endOfWindow :: sigs) = readerItems sigs ∧
    readerItems (ProviderSignal.endOfStream :: sigs) = [] := by
  refine ⟨mainLoop_nil m p st, ?_, rfl, rfl⟩
  cases item with
  | error e => exact Or.inl ⟨st, mainLoop_err m p st e rest⟩
  | ok r =>
      cases r with
      | new d =>
          by_cases hm : m = "block_to_block_output"
          · cases hp : p m d st.blockHeight with
            | ok u =>
                cases u
                exact Or.inl ⟨_, mainLoop_new_ok m p st d rest hm hp⟩
            | error err =>
                exact Or.inr ⟨_, mainLoop_new_err m p st d rest err hm hp⟩
          · exact Or.inl ⟨st, mainLoop_new_skip m p st d rest hm⟩

/-- C6: the orchestrator always seeds the stream with a starting height and
a `None` cursor (`main.rs:83`), so exactly one resumption strategy — the
height — is in effect, never both. -/
theorem C6_cursor_always_none (pkg : Package) (m : String) (s : Nat) :
    (mainStreamArgs pkg m s).cursor = none ∧
    (mainStreamArgs pkg m s).startBlock = s :=
  ⟨rfl, rfl⟩

/-- C7: the stream is created with start bound equal to the resume start
height and stop bound equal to start plus the fixed window span 500
(`main.rs:86-87`), so the window's end strictly exceeds its start. -/
theorem C7_initial_window (pkg : Package) (m : String) (s : Nat) :
    (mainStreamArgs pkg m s).startBlock = s ∧
    (mainStreamArgs pkg m s).stopBlock = s + 500 ∧
    (mainStreamArgs pkg m s).startBlock < (mainStreamArgs pkg m s).stopBlock :=
  ⟨rfl, rfl, by simp [mainStreamArgs]⟩

/-- C8 counterexample: startup succeeds for the unrecognized module name
`"not_a_module"` — no configuration error is raised — and at processing
time the matching block event is silently skipped: the loop returns with
the state unchanged and an empty processing trace. -/
theorem C8_counterexample :
    mainStartup ⟨some "postgres://db", none⟩ (Except.ok ⟨["m"]⟩) true
      "not_a_module" none =
      .ok ⟨"postgres://db", none, mainStreamArgs ⟨["m"]⟩ "not_a_module" 0⟩ ∧
    mainLoop "not_a_module" (fun _ _ _ => .ok ()) ⟨0, []⟩
      [Except.ok (BlockResponse.new ⟨0, [], "c"⟩)] = .ok ⟨0, []⟩ :=
  ⟨rfl, rfl⟩

/-- C8 (amended): an unrecognized module name is not rejected at startup —
whether startup fails, and with which error, is independent of the module
name — and at processing time every block event is silently skipped: the
loop never invokes a processor, never advances the counter, and completes
normally with its state unchanged. -/
theorem C8_unrecognized_module_silently_skips (env : Env)
    (pkgf : Except Unit Package) (c : Bool) (marker : Option Nat)
    (m m' : String) (e : StartupError) (p : Processor) (st : RunState)
    (events : List StreamItem)
    (hm : m ≠ "block_to_block_output") :
    (mainStartup env pkgf c m marker = .error e ↔
      mainStartup env pkgf c m' marker = .error e) ∧
    mainLoop m p st events = .ok st := by
  constructor
  · obtain ⟨du, tok⟩ := env
    cases du <;> cases pkgf <;> cases c <;> simp [mainStartup]
  · exact mainLoop_skip_all m p hm events st

theorem C8_unrecognized_module_silently_skips_witness :
    (mainStartup ⟨some "db", none⟩ (Except.ok ⟨[]⟩) true "foo" none =
        .error .missingDatabaseUrl ↔
      mainStartup ⟨some "db", none⟩ (Except.ok ⟨[]⟩) true "block_to_block_output"
        none = .error .missingDatabaseUrl) ∧
    mainLoop "foo" (fun _ _ _ => .ok ()) ⟨0, []⟩
      [Except.ok (BlockResponse.new ⟨0, [], "c"⟩)] = .ok ⟨0, []⟩ :=
  C8_unrecognized_module_silently_skips ⟨some "db", none⟩ (Except.ok ⟨[]⟩) true
    none "foo" "block_to_block_output" .missingDatabaseUrl
    (fun _ _ _ => .ok ()) ⟨0, []⟩
    [Except.ok (BlockResponse.new ⟨0, [], "c"⟩)] (by decide)

/-- C9: when `DATABASE_URL` is unset, startup fails with the missing-URL
error before any stream arguments exist — regardless of every other input;
when it is set, startup (with a decodable package and a successful
connection) succeeds and the connection pool is created from exactly its
value. -/
theorem C9_database_url_required (t : Option String) (pkgf : Except Unit Package)
    (c : Bool) (m : String) (marker : Option Nat) (url : String) (pkg : Package) :
    mainStartup ⟨none, t⟩ pkgf c m marker = .error .missingDatabaseUrl ∧
    mainStartup ⟨some url, t⟩ (.ok pkg) true m marker =
      .ok ⟨url, apiToken t, mainStreamArgs pkg m (start_block marker)⟩ :=
  ⟨rfl, rfl⟩

/-- C10: an empty `SUBSTREAMS_API_TOKEN` is treated identically to an unset
one — the bearer token is `None` in both cases — while a non-empty value is
passed through as `Some` of that value (`main.rs:66-70`). -/
theorem C10_empty_token_is_unset (s : String) (hs : ¬s.isEmpty) :
    apiToken none = none ∧ apiToken (some "") = none ∧
    apiToken (some s) = some s := by
  refine ⟨rfl, rfl, ?_⟩
  simp [apiToken, hs]

theorem C10_empty_token_is_unset_witness :
    apiToken none = none ∧ apiToken (some "") = none ∧
    apiToken (some "tok") = some "tok" :=
  C10_empty_token_is_unset "tok" (by decide)

end SfIndexer
